import Mathlib

/-!
Shallow embedding of `components/server/src/workspace/remote-context-provider.ts`
(`RemoteContextProvider`), the request-handling pipeline of the remote context
provider endpoint: credential resolution (`getUser`), provisioning
orchestration and wire translation (`getWorkspaceContext`).

External collaborators (context parser, workspace factory, workspace starter,
user database, Node's `crypto` SHA-256) are injected exactly as the class
receives them by dependency injection: they appear as function-valued fields of
a `Collaborators` record.  Observable side effects (the `console.log` call and
every collaborator invocation) are recorded in an explicit event trace so that
logging and invocation-order properties can be stated.
-/

namespace RemoteCtx

/-- `GitpodTokenType` from gitpod-protocol; the provider only ever uses
`machineAuthToken` (`MACHINE_AUTH_TOKEN`). -/
inductive GitpodTokenType where
  | apiAuthToken
  | machineAuthToken
deriving DecidableEq, Repr

/-- A user identity (`User` of gitpod-protocol), reduced to the `id` field,
which is all this core reads. -/
structure User where
  id : String
deriving DecidableEq, Repr

/-- A stored machine credential: its digest, its kind and its owning user
(the row shape `findUserByGitpodToken` resolves against). -/
structure GitpodToken where
  tokenHash : String
  type : GitpodTokenType
  user : User
deriving DecidableEq, Repr

/-- Request metadata: association of header names to value lists.  `none`
models an absent entry, `some []` an entry with an empty value list, matching
the `!auth || auth.length === 0` test in the source. -/
def Metadata : Type := List (String × List String)

/-- `metadata.get(key)` of the transport library, modelled as association-list
lookup for the queried key. -/
def Metadata.get (md : Metadata) (key : String) : Option (List String) :=
  List.lookup key md

/-- Environment-variable application mode (`EnvVarApplication` of
imagespec_pb). -/
inductive EnvVarApplication where
  | overwrite
  | append
  | prepend
deriving DecidableEq, Repr

/-- An environment-variable entry of a start specification
(`EnvironmentVariable` of imagespec_pb): name, value, application mode. -/
structure EnvironmentVariable where
  name : String
  value : String
  mode : EnvVarApplication
deriving DecidableEq, Repr

/-- Admission level of a workspace. -/
inductive AdmissionLevel where
  | admitOwnerOnly
  | admitEveryone
deriving DecidableEq, Repr

/-- Source-control information carried by a start specification; opaque to
this core, which only copies it. -/
structure GitSpec where
  data : String
deriving DecidableEq, Repr

/-- Workspace content initializer; opaque to this core, which only copies
it. -/
structure WorkspaceInitializer where
  data : String
deriving DecidableEq, Repr

/-- An exposed-port entry; opaque to this core, which only copies it. -/
structure PortSpec where
  data : String
deriving DecidableEq, Repr

/-- `StartWorkspaceSpec` of provider_pb: the start-specification message shape
used both for the internal specification produced by the workspace starter and
for the wire specification assembled by the provider. -/
structure StartWorkspaceSpec where
  admission : AdmissionLevel
  checkoutLocation : String
  envvars : List EnvironmentVariable
  git : Option GitSpec
  ideImage : String
  initializer : Option WorkspaceInitializer
  ports : List PortSpec
  timeout : String
  workspaceImage : String
  workspaceLocation : String
deriving DecidableEq, Repr

/-- `WorkspaceMetadata` of provider_pb. -/
structure WorkspaceMetadata where
  metaId : String
  owner : String
deriving DecidableEq, Repr

/-- `GetWorkspaceContextResponse` of provider_pb: the wire response. -/
structure GetWorkspaceContextResponse where
  id : String
  metadata : WorkspaceMetadata
  servicePrefix : String
  spec : StartWorkspaceSpec
deriving DecidableEq, Repr

/-- A workspace record, as produced by the workspace factory: identity and
owner. -/
structure Workspace where
  id : String
  ownerId : String
deriving DecidableEq, Repr

/-- A workspace instance, as produced by the workspace starter. -/
structure WorkspaceInstance where
  id : String
deriving DecidableEq, Repr

/-- A resolved workspace context, opaque to this core. -/
structure WorkspaceContext where
  data : String
deriving DecidableEq, Repr

/-- A stored user environment variable, opaque to this core. -/
structure UserEnvVar where
  name : String
  value : String
deriving DecidableEq, Repr

/-- Errors thrown out of `getWorkspaceContext`: the `{ code:
Status.UNAUTHENTICATED }` object, or a propagated collaborator error. -/
inductive GrpcError where
  | unauthenticated
  | upstream (message : String)
deriving DecidableEq, Repr

/-- Observable effects of one call, in program order: the `console.log({auth})`
statement and each collaborator invocation, recorded with the argument that
identifies the call. -/
inductive Event where
  | logAuth (values : List String)
  | findToken (hash : String)
  | normalize (url : String)
  | handleContext (url : String)
  | createForContext (url : String)
  | newInstance (workspaceId : String)
  | getEnvVars (userId : String)
  | createSpec (workspaceId : String) (instanceId : String)
deriving DecidableEq, Repr

/-- The injected collaborators of `RemoteContextProvider`, plus Node's
SHA-256.  `sha256hex` stands for `crypto.createHash("sha256").update(token,
"utf8").digest("hex")`, an opaque injected digest function; `tokenStore` is
the content of the credential table the user database resolves against.  Each
asynchronous collaborator returns `Except String _`: `error` models a rejected
promise. -/
structure Collaborators where
  sha256hex : String → String
  tokenStore : List GitpodToken
  normalizeContextURL : String → String
  handleContext : User → String → Except String WorkspaceContext
  createForContext : User → WorkspaceContext → String → Except String Workspace
  newInstance : Workspace → User → Except String WorkspaceInstance
  getEnvVars : String → Except String (List UserEnvVar)
  createSpec : User → Workspace → WorkspaceInstance → List UserEnvVar →
      Except String StartWorkspaceSpec

/-- Modelled from the spec: `findUserByGitpodToken` of the user database
(gitpod-db, outside the provided sources).  Per spec section 4.1 step 5 it
looks up a credential record by digest, scoped to a single credential kind;
no match means unresolved. -/
def findUserByGitpodToken (store : List GitpodToken) (tokenHash : String)
    (kind : GitpodTokenType) : Option GitpodToken :=
  store.find? (fun t => t.tokenHash == tokenHash && t.type == kind)

/-- JS `String.prototype.startsWith`, as an executable character-list prefix
test (core's `String.startsWith` is an external byte loop that does not
reduce in the kernel). -/
def strStartsWith (s pre : String) : Bool :=
  pre.data.isPrefixOf s.data

/-- `RemoteContextProvider.getUser`: Authorization-header extraction, bearer
prefix check, digest computation and credential lookup.  Returns the resolved
user (or `none` for unresolved) together with the trace of observable
effects. -/
def getUser (c : Collaborators) (metadata : Metadata) :
    Option User × List Event :=
  match metadata.get "Authorization" with
  | none => (none, [])
  | some [] => (none, [])
  | some (a0 :: rest) =>
    let logged := Event.logAuth (a0 :: rest)
    if strStartsWith a0 "Bearer " then
      let token := a0.drop "Bearer ".length
      let hash := c.sha256hex token
      match findUserByGitpodToken c.tokenStore hash
          GitpodTokenType.machineAuthToken with
      | none => (none, [logged, Event.findToken hash])
      | some entry => (some entry.user, [logged, Event.findToken hash])
    else
      (none, [logged])

/-- The specification-translation block of
`RemoteContextProvider.getWorkspaceContext` (the `new StartWorkspaceSpec()`
construction): copies each field of the internal specification into a fresh
wire specification, rebuilding every environment-variable entry with its mode
forced to `OVERWRITE`.  A plain Lean function, hence total and with no failure
mode. -/
def translateSpec (originalspec : StartWorkspaceSpec) : StartWorkspaceSpec :=
  { admission := originalspec.admission
    checkoutLocation := originalspec.checkoutLocation
    envvars := originalspec.envvars.map (fun e =>
      { name := e.name, value := e.value, mode := EnvVarApplication.overwrite })
    git := originalspec.git
    ideImage := originalspec.ideImage
    initializer := originalspec.initializer
    ports := originalspec.ports
    timeout := originalspec.timeout
    workspaceImage := originalspec.workspaceImage
    workspaceLocation := originalspec.workspaceLocation }

/-- `RemoteContextProvider.getWorkspaceContext`: credential resolution, the
strictly sequenced orchestration (normalize, resolve context, create
workspace, allocate instance, fetch environment variables, build
specification), translation, and wire-response assembly.  Any collaborator
failure propagates; an unresolved user becomes `GrpcError.unauthenticated`.
The second component is the trace of observable effects in program order. -/
def getWorkspaceContext (c : Collaborators) (metadata : Metadata)
    (contextUrl : String) :
    Except GrpcError GetWorkspaceContextResponse × List Event :=
  let u := getUser c metadata
  match u.1 with
  | none => (Except.error GrpcError.unauthenticated, u.2)
  | some user =>
    let normalizedContextUrl := c.normalizeContextURL contextUrl
    let ev1 := u.2 ++ [Event.normalize contextUrl]
    let ev2 := ev1 ++ [Event.handleContext normalizedContextUrl]
    match c.handleContext user normalizedContextUrl with
    | Except.error e => (Except.error (GrpcError.upstream e), ev2)
    | Except.ok context =>
      let ev3 := ev2 ++ [Event.createForContext normalizedContextUrl]
      match c.createForContext user context normalizedContextUrl with
      | Except.error e => (Except.error (GrpcError.upstream e), ev3)
      | Except.ok workspace =>
        let ev4 := ev3 ++ [Event.newInstance workspace.id]
        match c.newInstance workspace user with
        | Except.error e => (Except.error (GrpcError.upstream e), ev4)
        | Except.ok instanceRec =>
          let ev5 := ev4 ++ [Event.getEnvVars user.id]
          match c.getEnvVars user.id with
          | Except.error e => (Except.error (GrpcError.upstream e), ev5)
          | Except.ok envVars =>
            let ev6 := ev5 ++ [Event.createSpec workspace.id instanceRec.id]
            match c.createSpec user workspace instanceRec envVars with
            | Except.error e => (Except.error (GrpcError.upstream e), ev6)
            | Except.ok originalspec =>
              (Except.ok
                { id := instanceRec.id
                  metadata := { metaId := workspace.id
                                owner := workspace.ownerId }
                  servicePrefix := workspace.id
                  spec := translateSpec originalspec }, ev6)

/-- Events that are invocations of an orchestrator collaborator (context
resolver, workspace factory, instance starter, environment-variable store). -/
def Event.isOrchestratorCall : Event → Bool
  | .normalize _ => true
  | .handleContext _ => true
  | .createForContext _ => true
  | .newInstance _ => true
  | .getEnvVars _ => true
  | .createSpec _ _ => true
  | _ => false

/-- Events that are credential-store lookups. -/
def Event.isFindToken : Event → Bool
  | .findToken _ => true
  | _ => false

/-- Position of an orchestration step in the fixed sequence of spec section
4.2; `none` for effects outside the orchestration (logging, credential
lookup). -/
def Event.stepIndex : Event → Option Nat
  | .normalize _ => some 0
  | .handleContext _ => some 1
  | .createForContext _ => some 2
  | .newInstance _ => some 3
  | .getEnvVars _ => some 4
  | .createSpec _ _ => some 5
  | _ => none

/-! ### Characterization lemmas for `getUser` -/

/-- Credential resolution with no Authorization entry: unresolved, no
effects. -/
theorem getUser_no_header (c : Collaborators) (md : Metadata)
    (h : md.get "Authorization" = none) : getUser c md = (none, []) := by
  simp only [getUser, h]

/-- Credential resolution with an empty Authorization value list: unresolved,
no effects. -/
theorem getUser_empty_values (c : Collaborators) (md : Metadata)
    (h : md.get "Authorization" = some []) : getUser c md = (none, []) := by
  simp only [getUser, h]

/-- Credential resolution when the first Authorization value lacks the
`"Bearer "` prefix: the raw header is logged, then the result is unresolved
with no credential lookup. -/
theorem getUser_not_bearer (c : Collaborators) (md : Metadata)
    (a0 : String) (rest : List String)
    (h : md.get "Authorization" = some (a0 :: rest))
    (hb : strStartsWith a0 "Bearer " = false) :
    getUser c md = (none, [Event.logAuth (a0 :: rest)]) := by
  simp only [getUser, h, hb, Bool.false_eq_true, if_false]

/-- Credential resolution when the first Authorization value carries the
`"Bearer "` prefix: the raw header is logged, the remainder of the value is
digested and looked up once, and the result is the matched credential's
owner, if any. -/
theorem getUser_bearer (c : Collaborators) (md : Metadata)
    (a0 : String) (rest : List String)
    (h : md.get "Authorization" = some (a0 :: rest))
    (hb : strStartsWith a0 "Bearer " = true) :
    getUser c md =
      ((findUserByGitpodToken c.tokenStore
          (c.sha256hex (a0.drop "Bearer ".length))
          GitpodTokenType.machineAuthToken).map (fun t => t.user),
       [Event.logAuth (a0 :: rest),
        Event.findToken (c.sha256hex (a0.drop "Bearer ".length))]) := by
  simp only [getUser, h, hb, if_true]
  rcases findUserByGitpodToken c.tokenStore
      (c.sha256hex (a0.drop "Bearer ".length))
      GitpodTokenType.machineAuthToken with _ | entry <;> rfl

/-- Every effect recorded by credential resolution is a log event or a
credential lookup: its orchestration-step index is `none`. -/
theorem getUser_stepIndex_none (c : Collaborators) (md : Metadata) :
    ∀ e ∈ (getUser c md).2, e.stepIndex = none := by
  intro e he
  rcases hmd : md.get "Authorization" with _ | (_ | ⟨a0, rest⟩)
  · rw [getUser_no_header c md hmd] at he
    simp at he
  · rw [getUser_empty_values c md hmd] at he
    simp at he
  · cases hb : strStartsWith a0 "Bearer " with
    | false =>
      rw [getUser_not_bearer c md a0 rest hmd hb] at he
      simp only [List.mem_singleton] at he
      subst he
      rfl
    | true =>
      rw [getUser_bearer c md a0 rest hmd hb] at he
      simp only [List.mem_cons, List.mem_singleton, List.not_mem_nil,
        or_false] at he
      rcases he with he | he <;> (subst he; rfl)

/-- Every effect recorded by credential resolution is a log event or a
credential lookup, never an orchestrator-collaborator invocation. -/
theorem getUser_no_orchestrator_call (c : Collaborators) (md : Metadata) :
    ∀ e ∈ (getUser c md).2, e.isOrchestratorCall = false := by
  intro e he
  have h := getUser_stepIndex_none c md e he
  cases e <;> first | rfl | exact absurd h (by simp [Event.stepIndex])

/-! ### Step lemmas for `getWorkspaceContext` -/

/-- An unresolved user short-circuits the call to `UNAUTHENTICATED`; the trace
is exactly the credential-resolution trace. -/
theorem gwc_unauthenticated (c : Collaborators) (md : Metadata) (url : String)
    (ev : List Event) (h : getUser c md = (none, ev)) :
    getWorkspaceContext c md url =
      (Except.error GrpcError.unauthenticated, ev) := by
  simp only [getWorkspaceContext, h]

/-- Failure of context resolution propagates as an upstream error after the
normalize and resolve steps. -/
theorem gwc_handle_error (c : Collaborators) (md : Metadata) (url : String)
    (user : User) (ev : List Event) (e : String)
    (hu : getUser c md = (some user, ev))
    (hh : c.handleContext user (c.normalizeContextURL url) = Except.error e) :
    getWorkspaceContext c md url =
      (Except.error (GrpcError.upstream e),
       ev ++ [Event.normalize url,
              Event.handleContext (c.normalizeContextURL url)]) := by
  simp only [getWorkspaceContext, hu, hh, List.append_assoc,
    List.singleton_append, List.cons_append, List.nil_append]

/-- Failure of workspace creation propagates as an upstream error. -/
theorem gwc_create_error (c : Collaborators) (md : Metadata) (url : String)
    (user : User) (ev : List Event) (ctx : WorkspaceContext) (e : String)
    (hu : getUser c md = (some user, ev))
    (hh : c.handleContext user (c.normalizeContextURL url) = Except.ok ctx)
    (hc : c.createForContext user ctx (c.normalizeContextURL url)
        = Except.error e) :
    getWorkspaceContext c md url =
      (Except.error (GrpcError.upstream e),
       ev ++ [Event.normalize url,
              Event.handleContext (c.normalizeContextURL url),
              Event.createForContext (c.normalizeContextURL url)]) := by
  simp only [getWorkspaceContext, hu, hh, hc, List.append_assoc,
    List.singleton_append, List.cons_append, List.nil_append]

/-- Failure of instance allocation propagates as an upstream error. -/
theorem gwc_instance_error (c : Collaborators) (md : Metadata) (url : String)
    (user : User) (ev : List Event) (ctx : WorkspaceContext) (w : Workspace)
    (e : String)
    (hu : getUser c md = (some user, ev))
    (hh : c.handleContext user (c.normalizeContextURL url) = Except.ok ctx)
    (hc : c.createForContext user ctx (c.normalizeContextURL url)
        = Except.ok w)
    (hi : c.newInstance w user = Except.error e) :
    getWorkspaceContext c md url =
      (Except.error (GrpcError.upstream e),
       ev ++ [Event.normalize url,
              Event.handleContext (c.normalizeContextURL url),
              Event.createForContext (c.normalizeContextURL url),
              Event.newInstance w.id]) := by
  simp only [getWorkspaceContext, hu, hh, hc, hi, List.append_assoc,
    List.singleton_append, List.cons_append, List.nil_append]

/-- Failure of the environment-variable fetch propagates as an upstream
error. -/
theorem gwc_envvars_error (c : Collaborators) (md : Metadata) (url : String)
    (user : User) (ev : List Event) (ctx : WorkspaceContext) (w : Workspace)
    (inst : WorkspaceInstance) (e : String)
    (hu : getUser c md = (some user, ev))
    (hh : c.handleContext user (c.normalizeContextURL url) = Except.ok ctx)
    (hc : c.createForContext user ctx (c.normalizeContextURL url)
        = Except.ok w)
    (hi : c.newInstance w user = Except.ok inst)
    (he : c.getEnvVars user.id = Except.error e) :
    getWorkspaceContext c md url =
      (Except.error (GrpcError.upstream e),
       ev ++ [Event.normalize url,
              Event.handleContext (c.normalizeContextURL url),
              Event.createForContext (c.normalizeContextURL url),
              Event.newInstance w.id, Event.getEnvVars user.id]) := by
  simp only [getWorkspaceContext, hu, hh, hc, hi, he, List.append_assoc,
    List.singleton_append, List.cons_append, List.nil_append]

/-- Failure of specification building propagates as an upstream error. -/
theorem gwc_spec_error (c : Collaborators) (md : Metadata) (url : String)
    (user : User) (ev : List Event) (ctx : WorkspaceContext) (w : Workspace)
    (inst : WorkspaceInstance) (vars : List UserEnvVar) (e : String)
    (hu : getUser c md = (some user, ev))
    (hh : c.handleContext user (c.normalizeContextURL url) = Except.ok ctx)
    (hc : c.createForContext user ctx (c.normalizeContextURL url)
        = Except.ok w)
    (hi : c.newInstance w user = Except.ok inst)
    (he : c.getEnvVars user.id = Except.ok vars)
    (hs : c.createSpec user w inst vars = Except.error e) :
    getWorkspaceContext c md url =
      (Except.error (GrpcError.upstream e),
       ev ++ [Event.normalize url,
              Event.handleContext (c.normalizeContextURL url),
              Event.createForContext (c.normalizeContextURL url),
              Event.newInstance w.id, Event.getEnvVars user.id,
              Event.createSpec w.id inst.id]) := by
  simp only [getWorkspaceContext, hu, hh, hc, hi, he, hs, List.append_assoc,
    List.singleton_append, List.cons_append, List.nil_append]

/-- The fully successful run: response assembled from the instance id, the
workspace id and owner, and the translated specification, after all six
orchestration steps ran in order. -/
theorem gwc_success (c : Collaborators) (md : Metadata) (url : String)
    (user : User) (ev : List Event) (ctx : WorkspaceContext) (w : Workspace)
    (inst : WorkspaceInstance) (vars : List UserEnvVar)
    (spec0 : StartWorkspaceSpec)
    (hu : getUser c md = (some user, ev))
    (hh : c.handleContext user (c.normalizeContextURL url) = Except.ok ctx)
    (hc : c.createForContext user ctx (c.normalizeContextURL url)
        = Except.ok w)
    (hi : c.newInstance w user = Except.ok inst)
    (he : c.getEnvVars user.id = Except.ok vars)
    (hs : c.createSpec user w inst vars = Except.ok spec0) :
    getWorkspaceContext c md url =
      (Except.ok
        { id := inst.id
          metadata := { metaId := w.id, owner := w.ownerId }
          servicePrefix := w.id
          spec := translateSpec spec0 },
       ev ++ [Event.normalize url,
              Event.handleContext (c.normalizeContextURL url),
              Event.createForContext (c.normalizeContextURL url),
              Event.newInstance w.id, Event.getEnvVars user.id,
              Event.createSpec w.id inst.id]) := by
  simp only [getWorkspaceContext, hu, hh, hc, hi, he, hs, List.append_assoc,
    List.singleton_append, List.cons_append, List.nil_append]

/-! ### Concrete fixtures for witnesses -/

/-- Stand-in digest function for the concrete fixtures; the theorems are
universally quantified over the injected digest function. -/
def demoDigest (s : String) : String := "digest:" ++ s

/-- The user of the end-to-end fixture of spec section 8. -/
def demoUser : User := { id := "U1" }

/-- The internal start specification of the end-to-end fixture: one
environment variable with mode `append`. -/
def demoInternalSpec : StartWorkspaceSpec :=
  { admission := AdmissionLevel.admitOwnerOnly
    checkoutLocation := "repo"
    envvars := [{ name := "FOO", value := "bar",
                  mode := EnvVarApplication.append }]
    git := some { data := "git-info" }
    ideImage := "ide:1"
    initializer := some { data := "init" }
    ports := [{ data := "8080" }]
    timeout := "30m"
    workspaceImage := "ws-image:1"
    workspaceLocation := "/workspace/repo" }

/-- Collaborator fixture: one stored machine-auth credential for the digest of
token `"abc"` owned by `U1`; every orchestration step succeeds, producing
workspace `ws1` (owner `U1`), instance `inst1` and `demoInternalSpec`. -/
def demoCollab : Collaborators :=
  { sha256hex := demoDigest
    tokenStore := [{ tokenHash := demoDigest "abc",
                     type := GitpodTokenType.machineAuthToken,
                     user := demoUser }]
    normalizeContextURL := fun url => url ++ "/"
    handleContext := fun _ url => Except.ok { data := url }
    createForContext := fun _ _ _ => Except.ok { id := "ws1", ownerId := "U1" }
    newInstance := fun _ _ => Except.ok { id := "inst1" }
    getEnvVars := fun _ => Except.ok []
    createSpec := fun _ _ _ _ => Except.ok demoInternalSpec }

/-- Like `demoCollab`, but the context-resolution collaborator fails. -/
def failCollab : Collaborators :=
  { demoCollab with
    handleContext := fun _ _ => Except.error "context resolution failed" }

/-! ### Characterization of the credential lookup -/

/-- The lookup misses exactly when no stored credential has both the queried
digest and the queried kind. -/
theorem findToken_none_iff (store : List GitpodToken) (hash : String)
    (kind : GitpodTokenType) :
    findUserByGitpodToken store hash kind = none ↔
      ∀ t ∈ store, ¬(t.tokenHash = hash ∧ t.type = kind) := by
  unfold findUserByGitpodToken
  rw [List.find?_eq_none]
  constructor
  · intro h t ht hc
    exact h t ht (by simp [hc.1, hc.2])
  · intro h t ht hp
    simp only [Bool.and_eq_true, beq_iff_eq] at hp
    exact h t ht hp

/-- A hit of the lookup is a stored credential with the queried digest and
kind. -/
theorem findToken_some_spec (store : List GitpodToken) (hash : String)
    (kind : GitpodTokenType) (t : GitpodToken)
    (h : findUserByGitpodToken store hash kind = some t) :
    t ∈ store ∧ t.tokenHash = hash ∧ t.type = kind := by
  unfold findUserByGitpodToken at h
  have hm := List.mem_of_find?_eq_some h
  have hp := List.find?_some h
  simp only [Bool.and_eq_true, beq_iff_eq] at hp
  exact ⟨hm, hp.1, hp.2⟩

/-! ### Claim theorems -/

/-- C1: refuted on the code — during credential resolution the raw
Authorization header value (which contains the raw bearer token) IS written to
log output: `console.log({auth})` runs on every request that carries a
non-empty Authorization entry, before the prefix check.  At the concrete
request below the effect trace contains a log event carrying the raw header
`"Bearer abc"`. -/
theorem c1_raw_auth_header_is_logged :
    Event.logAuth ["Bearer abc"] ∈
      (getUser demoCollab [("Authorization", ["Bearer abc"])]).2 := by
  decide

/-- C3: confirmed — the environment-variable lists of an internal
specification and of its translation correspond pointwise: each wire entry
keeps the internal entry's name and value and carries application mode
`overwrite`, whatever mode the internal entry carried. -/
theorem c3_envvars_mode_overwrite (s : StartWorkspaceSpec) :
    List.Forall₂
      (fun (e r : EnvironmentVariable) =>
        r.name = e.name ∧ r.value = e.value ∧
          r.mode = EnvVarApplication.overwrite)
      s.envvars (translateSpec s).envvars := by
  simp only [translateSpec]
  induction s.envvars with
  | nil => exact List.Forall₂.nil
  | cons a l ih => exact List.Forall₂.cons ⟨rfl, rfl, rfl⟩ ih

/-- C8: value-level part of the translation contract: the translator is a
total Lean function and each of the nine copied fields of the wire
specification equals the corresponding internal field.  The claim's further
requirement that the wire object share no mutable state with the internal one
is violated by the source, which stores the very objects returned by the
internal getters (`setGit(originalspec.getGit())` and likewise for the
initializer and the ports list), so those sub-objects are aliased, not
copied; a value-level embedding cannot distinguish the two, and the copied
values themselves are equal, as proved here. -/
theorem c8_fields_value_copied_total (s : StartWorkspaceSpec) :
    (translateSpec s).admission = s.admission ∧
    (translateSpec s).checkoutLocation = s.checkoutLocation ∧
    (translateSpec s).git = s.git ∧
    (translateSpec s).ideImage = s.ideImage ∧
    (translateSpec s).initializer = s.initializer ∧
    (translateSpec s).ports = s.ports ∧
    (translateSpec s).timeout = s.timeout ∧
    (translateSpec s).workspaceImage = s.workspaceImage ∧
    (translateSpec s).workspaceLocation = s.workspaceLocation :=
  ⟨rfl, rfl, rfl, rfl, rfl, rfl, rfl, rfl, rfl⟩

/-- C9: confirmed — translation is deterministic: applying the translator to
the same internal specification twice (here: to two equal internal
specifications) yields wire specifications that agree on every field. -/
theorem c9_translation_deterministic_fieldwise (s t : StartWorkspaceSpec)
    (h : s = t) :
    (translateSpec s).admission = (translateSpec t).admission ∧
    (translateSpec s).checkoutLocation = (translateSpec t).checkoutLocation ∧
    (translateSpec s).envvars = (translateSpec t).envvars ∧
    (translateSpec s).git = (translateSpec t).git ∧
    (translateSpec s).ideImage = (translateSpec t).ideImage ∧
    (translateSpec s).initializer = (translateSpec t).initializer ∧
    (translateSpec s).ports = (translateSpec t).ports ∧
    (translateSpec s).timeout = (translateSpec t).timeout ∧
    (translateSpec s).workspaceImage = (translateSpec t).workspaceImage ∧
    (translateSpec s).workspaceLocation = (translateSpec t).workspaceLocation
    := by
  subst h
  exact ⟨rfl, rfl, rfl, rfl, rfl, rfl, rfl, rfl, rfl, rfl⟩

/-- Witness for C9 at the fixture specification. -/
theorem c9_translation_deterministic_witness :
    (translateSpec demoInternalSpec).admission
      = (translateSpec demoInternalSpec).admission ∧
    (translateSpec demoInternalSpec).checkoutLocation
      = (translateSpec demoInternalSpec).checkoutLocation ∧
    (translateSpec demoInternalSpec).envvars
      = (translateSpec demoInternalSpec).envvars ∧
    (translateSpec demoInternalSpec).git
      = (translateSpec demoInternalSpec).git ∧
    (translateSpec demoInternalSpec).ideImage
      = (translateSpec demoInternalSpec).ideImage ∧
    (translateSpec demoInternalSpec).initializer
      = (translateSpec demoInternalSpec).initializer ∧
    (translateSpec demoInternalSpec).ports
      = (translateSpec demoInternalSpec).ports ∧
    (translateSpec demoInternalSpec).timeout
      = (translateSpec demoInternalSpec).timeout ∧
    (translateSpec demoInternalSpec).workspaceImage
      = (translateSpec demoInternalSpec).workspaceImage ∧
    (translateSpec demoInternalSpec).workspaceLocation
      = (translateSpec demoInternalSpec).workspaceLocation :=
  c9_translation_deterministic_fieldwise demoInternalSpec demoInternalSpec rfl

/-- C2: confirmed — for every successful `getWorkspaceContext` call, the wire
response's `servicePrefix` and `metadata.metaId` equal the workspace record's
id (and `metadata.owner` its owner id), while the response's `id` equals the
instance's id. -/
theorem c2_response_ids_from_workspace_and_instance
    (c : Collaborators) (md : Metadata) (url : String)
    (user : User) (ev : List Event) (ctx : WorkspaceContext) (w : Workspace)
    (inst : WorkspaceInstance) (vars : List UserEnvVar)
    (spec0 : StartWorkspaceSpec) (resp : GetWorkspaceContextResponse)
    (hu : getUser c md = (some user, ev))
    (hh : c.handleContext user (c.normalizeContextURL url) = Except.ok ctx)
    (hc : c.createForContext user ctx (c.normalizeContextURL url)
        = Except.ok w)
    (hi : c.newInstance w user = Except.ok inst)
    (he : c.getEnvVars user.id = Except.ok vars)
    (hs : c.createSpec user w inst vars = Except.ok spec0)
    (hok : (getWorkspaceContext c md url).1 = Except.ok resp) :
    resp.servicePrefix = w.id ∧ resp.metadata.metaId = w.id ∧
      resp.id = inst.id ∧ resp.metadata.owner = w.ownerId := by
  rw [gwc_success c md url user ev ctx w inst vars spec0 hu hh hc hi he hs]
    at hok
  have h2 : ({ id := inst.id
               metadata := { metaId := w.id, owner := w.ownerId }
               servicePrefix := w.id
               spec := translateSpec spec0 } : GetWorkspaceContextResponse)
      = resp := Except.ok.inj hok
  rw [← h2]
  exact ⟨rfl, rfl, rfl, rfl⟩

/-- Witness for C2 at the end-to-end fixture, whose workspace id `ws1`
differs from its instance id `inst1`. -/
theorem c2_response_ids_witness :
    ({ id := "inst1"
       metadata := { metaId := "ws1", owner := "U1" }
       servicePrefix := "ws1"
       spec := translateSpec demoInternalSpec }
        : GetWorkspaceContextResponse).servicePrefix = "ws1" ∧
    ({ id := "inst1"
       metadata := { metaId := "ws1", owner := "U1" }
       servicePrefix := "ws1"
       spec := translateSpec demoInternalSpec }
        : GetWorkspaceContextResponse).metadata.metaId = "ws1" ∧
    ({ id := "inst1"
       metadata := { metaId := "ws1", owner := "U1" }
       servicePrefix := "ws1"
       spec := translateSpec demoInternalSpec }
        : GetWorkspaceContextResponse).id = "inst1" ∧
    ({ id := "inst1"
       metadata := { metaId := "ws1", owner := "U1" }
       servicePrefix := "ws1"
       spec := translateSpec demoInternalSpec }
        : GetWorkspaceContextResponse).metadata.owner = "U1" :=
  c2_response_ids_from_workspace_and_instance demoCollab
    [("Authorization", ["Bearer abc"])] "https://example.com/repo"
    demoUser
    [Event.logAuth ["Bearer abc"], Event.findToken (demoDigest "abc")]
    { data := "https://example.com/repo/" } { id := "ws1", ownerId := "U1" }
    { id := "inst1" } [] demoInternalSpec
    { id := "inst1"
      metadata := { metaId := "ws1", owner := "U1" }
      servicePrefix := "ws1"
      spec := translateSpec demoInternalSpec }
    (by decide) rfl rfl rfl rfl rfl rfl

/-- C4: confirmed — a request whose metadata lacks the Authorization entry,
carries an empty Authorization value list, or whose first Authorization value
lacks the case-sensitive `"Bearer "` prefix fails with `UNAUTHENTICATED`, and
no orchestrator collaborator (context resolver, workspace factory, instance
starter, environment-variable store) is invoked. -/
theorem c4_malformed_auth_unauthenticated_no_orchestration
    (c : Collaborators) (md : Metadata) (url : String)
    (hmal : md.get "Authorization" = none ∨
      md.get "Authorization" = some [] ∨
      ∃ a0 rest, md.get "Authorization" = some (a0 :: rest) ∧
        strStartsWith a0 "Bearer " = false) :
    (getWorkspaceContext c md url).1
      = Except.error GrpcError.unauthenticated ∧
    ∀ e ∈ (getWorkspaceContext c md url).2, e.isOrchestratorCall = false := by
  rcases hmal with h | h | ⟨a0, rest, h, hb⟩
  · rw [gwc_unauthenticated c md url [] (getUser_no_header c md h)]
    exact ⟨rfl, by simp⟩
  · rw [gwc_unauthenticated c md url [] (getUser_empty_values c md h)]
    exact ⟨rfl, by simp⟩
  · rw [gwc_unauthenticated c md url _ (getUser_not_bearer c md a0 rest h hb)]
    refine ⟨rfl, ?_⟩
    intro e he
    simp only [List.mem_singleton] at he
    subst he
    rfl

/-- Witness for C4 at a request whose Authorization value has the wrong
scheme. -/
theorem c4_malformed_witness :
    (getWorkspaceContext demoCollab [("Authorization", ["Basic zzz"])]
        "u").1 = Except.error GrpcError.unauthenticated ∧
    ∀ e ∈ (getWorkspaceContext demoCollab [("Authorization", ["Basic zzz"])]
        "u").2, e.isOrchestratorCall = false :=
  c4_malformed_auth_unauthenticated_no_orchestration demoCollab
    [("Authorization", ["Basic zzz"])] "u"
    (Or.inr (Or.inr ⟨"Basic zzz", [], by decide, by decide⟩))

/-- C5: confirmed (credential store modelled from the spec) — for a
well-formed bearer value the resolver answers exactly from the stored
machine-auth-token credential whose digest equals the digest of the raw
token: with no matching credential the result is unresolved; a returned user
owns a matching credential; and when a matching credential exists and all
matching credentials agree on the owner, that owner is returned. -/
theorem c5_credential_lookup_by_digest
    (c : Collaborators) (md : Metadata) (a0 : String) (rest : List String)
    (hget : md.get "Authorization" = some (a0 :: rest))
    (hpre : strStartsWith a0 "Bearer " = true) :
    ((∀ t ∈ c.tokenStore,
        ¬(t.tokenHash = c.sha256hex (a0.drop "Bearer ".length) ∧
          t.type = GitpodTokenType.machineAuthToken)) →
      (getUser c md).1 = none) ∧
    (∀ u, (getUser c md).1 = some u →
      ∃ t ∈ c.tokenStore,
        t.tokenHash = c.sha256hex (a0.drop "Bearer ".length) ∧
        t.type = GitpodTokenType.machineAuthToken ∧ t.user = u) ∧
    (∀ u, (∃ t ∈ c.tokenStore,
        t.tokenHash = c.sha256hex (a0.drop "Bearer ".length) ∧
        t.type = GitpodTokenType.machineAuthToken) →
      (∀ t ∈ c.tokenStore,
        t.tokenHash = c.sha256hex (a0.drop "Bearer ".length) ∧
          t.type = GitpodTokenType.machineAuthToken → t.user = u) →
      (getUser c md).1 = some u) := by
  rw [getUser_bearer c md a0 rest hget hpre]
  refine ⟨?_, ?_, ?_⟩
  · intro hno
    have hn : findUserByGitpodToken c.tokenStore
        (c.sha256hex (a0.drop "Bearer ".length))
        GitpodTokenType.machineAuthToken = none :=
      (findToken_none_iff _ _ _).mpr hno
    simp [hn]
  · intro u hu
    rcases hf : findUserByGitpodToken c.tokenStore
        (c.sha256hex (a0.drop "Bearer ".length))
        GitpodTokenType.machineAuthToken with _ | t
    · rw [hf] at hu
      simp at hu
    · rw [hf] at hu
      simp only [Option.map_some'] at hu
      obtain ⟨hm, h1, h2⟩ := findToken_some_spec _ _ _ t hf
      exact ⟨t, hm, h1, h2, Option.some.inj hu⟩
  · intro u hex huniq
    rcases hf : findUserByGitpodToken c.tokenStore
        (c.sha256hex (a0.drop "Bearer ".length))
        GitpodTokenType.machineAuthToken with _ | t
    · obtain ⟨t, ht, h1, h2⟩ := hex
      exact absurd ⟨h1, h2⟩ ((findToken_none_iff _ _ _).mp hf t ht)
    · obtain ⟨hm, h1, h2⟩ := findToken_some_spec _ _ _ t hf
      have : t.user = u := huniq t hm ⟨h1, h2⟩
      simp [hf, this]

/-- Witness for C5: the stored credential for the digest of `"abc"` resolves
to its owner `U1`. -/
theorem c5_lookup_witness :
    (getUser demoCollab [("Authorization", ["Bearer abc"])]).1
      = some demoUser :=
  (c5_credential_lookup_by_digest demoCollab
      [("Authorization", ["Bearer abc"])] "Bearer abc" []
      (by decide) (by decide)).2.2 demoUser (by decide) (by decide)

/-- C6: confirmed (credential store modelled from the spec) — when the single
credential lookup finds no match, the request terminates with
`UNAUTHENTICATED`, and the trace holds exactly one credential-store lookup:
no retry. -/
theorem c6_lookup_failure_terminal_single_attempt
    (c : Collaborators) (md : Metadata) (url : String)
    (a0 : String) (rest : List String)
    (hget : md.get "Authorization" = some (a0 :: rest))
    (hpre : strStartsWith a0 "Bearer " = true)
    (hnomatch : findUserByGitpodToken c.tokenStore
        (c.sha256hex (a0.drop "Bearer ".length))
        GitpodTokenType.machineAuthToken = none) :
    (getWorkspaceContext c md url).1
      = Except.error GrpcError.unauthenticated ∧
    ((getWorkspaceContext c md url).2.countP
      (fun e => e.isFindToken)) = 1 := by
  have hg := getUser_bearer c md a0 rest hget hpre
  rw [hnomatch] at hg
  simp only [Option.map_none'] at hg
  rw [gwc_unauthenticated c md url _ hg]
  refine ⟨rfl, ?_⟩
  simp [List.countP_cons, List.countP_nil, Event.isFindToken]

/-- Witness for C6: a bearer token whose digest matches no stored
credential. -/
theorem c6_failure_witness :
    (getWorkspaceContext demoCollab [("Authorization", ["Bearer zzz"])]
        "u").1 = Except.error GrpcError.unauthenticated ∧
    ((getWorkspaceContext demoCollab [("Authorization", ["Bearer zzz"])]
        "u").2.countP (fun e => e.isFindToken)) = 1 :=
  c6_lookup_failure_terminal_single_attempt demoCollab
    [("Authorization", ["Bearer zzz"])] "u" "Bearer zzz" []
    (by decide) (by decide) (by decide)

/-- C7: confirmed — the sequence of orchestration steps recorded in any run's
trace is a prefix of the fixed order (normalize, resolve context, create
workspace, allocate instance, fetch environment variables, build
specification), so a failure at any step cuts the sequence there and nothing
later runs; in particular, when context resolution fails, the call returns
that upstream error (no partial workspace record or instance), and the
workspace factory, instance starter and environment-variable store are never
invoked. -/
theorem c7_strict_order_and_abort_on_context_failure
    (c : Collaborators) (md : Metadata) (url : String) :
    (∃ n, n ≤ 6 ∧
      ((getWorkspaceContext c md url).2.filterMap Event.stepIndex)
        = List.range n) ∧
    (∀ user e, (getUser c md).1 = some user →
      c.handleContext user (c.normalizeContextURL url) = Except.error e →
      (getWorkspaceContext c md url).1
        = Except.error (GrpcError.upstream e) ∧
      ∀ ev ∈ (getWorkspaceContext c md url).2,
        ev.stepIndex = some 0 ∨ ev.stepIndex = some 1 ∨
          ev.stepIndex = none) := by
  have hnil : (getUser c md).2.filterMap Event.stepIndex = [] :=
    List.filterMap_eq_nil_iff.mpr (getUser_stepIndex_none c md)
  constructor
  · rcases hu1 : (getUser c md).1 with _ | user
    · have hu : getUser c md = (none, (getUser c md).2) := by rw [← hu1]
      rw [gwc_unauthenticated c md url _ hu]
      refine ⟨0, by norm_num, ?_⟩
      simpa using hnil
    · have hu : getUser c md = (some user, (getUser c md).2) := by
        rw [← hu1]
      rcases hh : c.handleContext user (c.normalizeContextURL url)
          with e | ctx
      · rw [gwc_handle_error c md url user _ e hu hh]
        refine ⟨2, by norm_num, ?_⟩
        simp only [List.filterMap_append, hnil, List.nil_append]
        rfl
      · rcases hc : c.createForContext user ctx (c.normalizeContextURL url)
            with e | w
        · rw [gwc_create_error c md url user _ ctx e hu hh hc]
          refine ⟨3, by norm_num, ?_⟩
          simp only [List.filterMap_append, hnil, List.nil_append]
          rfl
        · rcases hi : c.newInstance w user with e | inst
          · rw [gwc_instance_error c md url user _ ctx w e hu hh hc hi]
            refine ⟨4, by norm_num, ?_⟩
            simp only [List.filterMap_append, hnil, List.nil_append]
            rfl
          · rcases he : c.getEnvVars user.id with e | vars
            · rw [gwc_envvars_error c md url user _ ctx w inst e
                hu hh hc hi he]
              refine ⟨5, by norm_num, ?_⟩
              simp only [List.filterMap_append, hnil, List.nil_append]
              rfl
            · rcases hs : c.createSpec user w inst vars with e | spec0
              · rw [gwc_spec_error c md url user _ ctx w inst vars e
                  hu hh hc hi he hs]
                refine ⟨6, by norm_num, ?_⟩
                simp only [List.filterMap_append, hnil, List.nil_append]
                rfl
              · rw [gwc_success c md url user _ ctx w inst vars spec0
                  hu hh hc hi he hs]
                refine ⟨6, by norm_num, ?_⟩
                simp only [List.filterMap_append, hnil, List.nil_append]
                rfl
  · intro user e hu1 hh
    have hu : getUser c md = (some user, (getUser c md).2) := by rw [← hu1]
    rw [gwc_handle_error c md url user _ e hu hh]
    refine ⟨rfl, ?_⟩
    intro ev hev
    simp only [List.mem_append, List.mem_cons, List.not_mem_nil,
      or_false] at hev
    rcases hev with hmem | hev | hev
    · exact Or.inr (Or.inr (getUser_stepIndex_none c md ev hmem))
    · subst hev
      exact Or.inl rfl
    · subst hev
      exact Or.inr (Or.inl rfl)

/-- Witness for C7: the failing-context-resolution fixture aborts with the
upstream error and records no factory, starter or environment-variable
invocation. -/
theorem c7_abort_witness :
    (getWorkspaceContext failCollab [("Authorization", ["Bearer abc"])]
        "u").1 = Except.error (GrpcError.upstream
          "context resolution failed") ∧
    ∀ ev ∈ (getWorkspaceContext failCollab [("Authorization", ["Bearer abc"])]
        "u").2,
      ev.stepIndex = some 0 ∨ ev.stepIndex = some 1 ∨ ev.stepIndex = none :=
  (c7_strict_order_and_abort_on_context_failure failCollab
      [("Authorization", ["Bearer abc"])] "u").2
    demoUser "context resolution failed" (by decide) rfl

/-- C10: confirmed — only the first Authorization value is examined: a first
value without the `"Bearer "` prefix yields unresolved with no credential
lookup, whatever the later values hold; and a first value of exactly
`"Bearer "` is not rejected: the empty token is digested and looked up like
any other token. -/
theorem c10_only_first_auth_value_examined
    (c : Collaborators) (md : Metadata) (a0 : String) (rest : List String)
    (hget : md.get "Authorization" = some (a0 :: rest)) :
    (strStartsWith a0 "Bearer " = false →
      (getUser c md).1 = none ∧
      ∀ e ∈ (getUser c md).2, e.isFindToken = false) ∧
    (a0 = "Bearer " →
      getUser c md =
        ((findUserByGitpodToken c.tokenStore (c.sha256hex "")
            GitpodTokenType.machineAuthToken).map (fun t => t.user),
         [Event.logAuth (a0 :: rest),
          Event.findToken (c.sha256hex "")])) := by
  constructor
  · intro hb
    rw [getUser_not_bearer c md a0 rest hget hb]
    refine ⟨rfl, ?_⟩
    intro e he
    simp only [List.mem_singleton] at he
    subst he
    rfl
  · intro ha
    subst ha
    have h := getUser_bearer c md "Bearer " rest hget (by decide)
    have hdrop : "Bearer ".drop "Bearer ".length = "" := rfl
    rw [hdrop] at h
    exact h

/-- Witness for C10: a first value of exactly `"Bearer "` sends the digest of
the empty token to the lookup (and the second well-formed value is never
examined, the first being the one reaching the digest). -/
theorem c10_first_value_witness :
    getUser demoCollab [("Authorization", ["Bearer "])] =
      ((findUserByGitpodToken demoCollab.tokenStore
          (demoCollab.sha256hex "") GitpodTokenType.machineAuthToken).map
        (fun t => t.user),
       [Event.logAuth ["Bearer "],
        Event.findToken (demoCollab.sha256hex "")]) :=
  (c10_only_first_auth_value_examined demoCollab
      [("Authorization", ["Bearer "])] "Bearer " [] (by decide)).2 rfl

end RemoteCtx
